import Mathlib

/-!
Verification of the OpenSlides excerpt: the motion-state access-level
migration (`openslides/motions/migrations/0021_state_access_level.py`),
the mediafile projector slide (`openslides/mediafiles/projector.py`) and
the bootstrap utilities (`openslides/utils/main.py`).

Python values are embedded shallowly: Django char fields become `String`
(Python truthiness of a string is non-emptiness), integer fields become
`Nat`, fallible functions return `Except PyExn`, and interactions with the
operating system (socket binds, temporary files, environment variables,
Windows shell lookups) are passed in as explicit oracle arguments.
-/

/-- Python truthiness of a string: non-empty strings are truthy. -/
def pyStrTruthy (s : String) : Bool :=
  s != ""

/-! ## Migration 0021_state_access_level

The migration has three operations: `AddField` adding the integer field
`access_level` (default 0, choices 0..3), `RunPython` running
`transform_required_permission_to_see_field`, and `RemoveField` dropping
`required_permission_to_see`.  We model the motion-state row at each of
the three schema stages and the migration as the composition of the three
operations in their listed order. -/

/-- One operation of a Django migration, as listed in `Migration.operations`. -/
inductive MigrationOp where
  | addField (model_name field_name : String) (dflt : Nat)
  | runPython (function_name : String)
  | removeField (model_name field_name : String)
deriving Repr, DecidableEq

/-- The `operations` list of `Migration` in `0021_state_access_level.py`. -/
def operations : List MigrationOp :=
  [MigrationOp.addField "state" "access_level" 0,
   MigrationOp.runPython "transform_required_permission_to_see_field",
   MigrationOp.removeField "state" "required_permission_to_see"]

/-- The `choices` of the added `access_level` field. -/
def access_level_choices : List (Nat × String) :=
  [(0, "All users with permission to see motions"),
   (1, "Submitters, managers and users with permission to manage metadata"),
   (2, "Only managers and users with permission to manage metadata"),
   (3, "Only managers")]

/-- A motion-state row before the migration: it only carries the
`required_permission_to_see` char field. -/
structure StateRow0 where
  required_permission_to_see : String
deriving Repr, DecidableEq

/-- A motion-state row after the `AddField` operation: it carries both
`required_permission_to_see` and the new `access_level` integer field. -/
structure StateRow1 where
  required_permission_to_see : String
  access_level : Nat
deriving Repr, DecidableEq

/-- A motion-state row after the `RemoveField` operation: only
`access_level` remains. -/
structure StateRow2 where
  access_level : Nat
deriving Repr, DecidableEq

/-- `migrations.AddField` on one row: the new `access_level` column is
filled with the field default 0. -/
def addAccessLevelField (r : StateRow0) : StateRow1 :=
  { required_permission_to_see := r.required_permission_to_see,
    access_level := 0 }

/-- The body of the loop in `transform_required_permission_to_see_field`
for a single state: when `required_permission_to_see` is truthy the row's
`access_level` is set to 1 and the row is saved.  The boolean of the
result records whether `state.save` was called. -/
def transform_state_row (state : StateRow1) : StateRow1 × Bool :=
  if pyStrTruthy state.required_permission_to_see then
    ({ state with access_level := 1 }, true)
  else
    (state, false)

/-- `transform_required_permission_to_see_field`: iterate the loop body
over all motion-state rows (the saved rows keep their new value, unsaved
rows keep their stored value, which is the same record). -/
def transform_required_permission_to_see_field (states : List StateRow1) :
    List StateRow1 :=
  states.map (fun state => (transform_state_row state).1)

/-- `migrations.RemoveField` on one row: drop `required_permission_to_see`. -/
def removeRequiredPermissionField (r : StateRow1) : StateRow2 :=
  { access_level := r.access_level }

/-- The whole migration: the three operations of `operations`, applied in
their listed order to every motion-state row. -/
def runMigration (db : List StateRow0) : List StateRow2 :=
  List.map removeRequiredPermissionField
    (transform_required_permission_to_see_field
      (List.map addAccessLevelField db))

/-- Claim C1: for every motion-state row processed by the transform step
(that is, every row as produced by the `AddField` operation), a truthy
`required_permission_to_see` makes the transform set `access_level` to 1
and save the row, while a falsy one leaves the row unsaved with
`access_level` still at the field default 0. -/
theorem transform_access_level_spec (r0 : StateRow0) :
    (pyStrTruthy (addAccessLevelField r0).required_permission_to_see = true →
      (transform_state_row (addAccessLevelField r0)).1.access_level = 1 ∧
      (transform_state_row (addAccessLevelField r0)).2 = true) ∧
    (pyStrTruthy (addAccessLevelField r0).required_permission_to_see = false →
      (transform_state_row (addAccessLevelField r0)).2 = false ∧
      (transform_state_row (addAccessLevelField r0)).1.access_level = 0) := by
  constructor
  · intro h
    simp [transform_state_row, h]
  · intro h
    simp only [addAccessLevelField] at h
    simp [transform_state_row, h, addAccessLevelField]

/-- Witness for C1 at the concrete permissions "motions.can_manage" and "". -/
theorem transform_access_level_spec_witness :
    ((transform_state_row (addAccessLevelField ⟨"motions.can_manage"⟩)).1.access_level = 1 ∧
     (transform_state_row (addAccessLevelField ⟨"motions.can_manage"⟩)).2 = true) ∧
    ((transform_state_row (addAccessLevelField ⟨""⟩)).2 = false ∧
     (transform_state_row (addAccessLevelField ⟨""⟩)).1.access_level = 0) :=
  ⟨(transform_access_level_spec ⟨"motions.can_manage"⟩).1 (by decide),
   (transform_access_level_spec ⟨""⟩).2 (by decide)⟩

/-- Claim C2: every motion-state row produced by the migration has an
`access_level` among the declared choices 0, 1, 2, 3. -/
theorem migration_access_level_in_choices (db : List StateRow0) (r : StateRow2)
    (h : r ∈ runMigration db) :
    r.access_level ∈ List.map Prod.fst access_level_choices := by
  simp only [runMigration, transform_required_permission_to_see_field,
    List.map_map, List.mem_map, Function.comp] at h
  obtain ⟨r0, _, rfl⟩ := h
  by_cases hp : pyStrTruthy (addAccessLevelField r0).required_permission_to_see
  · simp [transform_state_row, hp, removeRequiredPermissionField,
      access_level_choices]
  · simp only [Bool.not_eq_true, addAccessLevelField] at hp
    simp [transform_state_row, hp, removeRequiredPermissionField,
      addAccessLevelField, access_level_choices]

/-- Witness for C2 on a concrete two-row database. -/
theorem migration_access_level_in_choices_witness :
    (⟨1⟩ : StateRow2) ∈ runMigration [⟨"motions.can_manage"⟩, ⟨""⟩] ∧
    (⟨1⟩ : StateRow2).access_level ∈ List.map Prod.fst access_level_choices :=
  ⟨by decide, migration_access_level_in_choices
    [⟨"motions.can_manage"⟩, ⟨""⟩] ⟨1⟩ (by decide)⟩

/-- Claim C3: the migration's operations are, in order, the `AddField` of
`access_level` with default 0, the `RunPython` of the transform, and the
`RemoveField` of `required_permission_to_see`; and the resulting database
does not determine the original one (two distinct databases migrate to the
same result), so the transformation cannot be reversed. -/
theorem migration_order_and_irreversible :
    operations =
      [MigrationOp.addField "state" "access_level" 0,
       MigrationOp.runPython "transform_required_permission_to_see_field",
       MigrationOp.removeField "state" "required_permission_to_see"] ∧
    ∃ db1 db2 : List StateRow0,
      db1 ≠ db2 ∧ runMigration db1 = runMigration db2 := by
  refine ⟨rfl, [⟨"motions.can_manage"⟩], [⟨"motions.can_see"⟩], ?_, ?_⟩
  · decide
  · decide

/-! ## mediafiles/projector.py -/

/-- `mediafile_slide` from `openslides/mediafiles/projector.py`: the
slide renderer for mediafiles, returning the constant error dictionary. -/
def mediafile_slide {AllData Element : Type} (all_data : AllData)
    (element : Element) : List (String × String) :=
  [("error", "TODO")]

/-- Claim C9: `mediafile_slide` returns the constant dictionary
mapping "error" to "TODO" for every `all_data` and `element`, with no
dependence on either argument. -/
theorem mediafile_slide_constant :
    ∀ (AllData Element : Type) (all_data : AllData) (element : Element),
      mediafile_slide all_data element = [("error", "TODO")] ∧
      ∀ (A2 E2 : Type) (a2 : A2) (e2 : E2),
        mediafile_slide all_data element = mediafile_slide a2 e2 :=
  fun _ _ _ _ => ⟨rfl, fun _ _ _ _ => rfl⟩

/-! ## utils/main.py

The named exceptions of the module, together with Python's built-in
`TypeError`, raised by the helpers below. -/

/-- A Python exception raised by `openslides/utils/main.py`:
`PortableDirNotWritable`, `DatabaseInSettingsError` or a built-in
`TypeError`, each with its message. -/
inductive PyExn where
  | portableDirNotWritable (msg : String)
  | databaseInSettingsError (msg : String)
  | typeError (msg : String)
deriving Repr, DecidableEq

/-- Outcome of a Python socket operation: success, or raising
`socket.error`. -/
inductive SocketOutcome where
  | ok
  | socketError
deriving Repr, DecidableEq

/-- `get_port` from `openslides/utils/main.py`.  The outcomes of the two
operations inside the `try` block, `s.bind((address, port))` and
`s.listen(-1)`, are oracle arguments (`listen` only runs when `bind`
succeeded); a `socket.error` from either one is caught and turns the port
into 8000.  The boolean of the result records whether a socket was created
and a bind attempted at all. -/
def get_port (address : String) (port : Nat)
    (bindOutcome listenOutcome : SocketOutcome) : Nat × Bool :=
  if port = 80 then
    match bindOutcome with
    | SocketOutcome.socketError => (8000, true)
    | SocketOutcome.ok =>
      match listenOutcome with
      | SocketOutcome.socketError => (8000, true)
      | SocketOutcome.ok => (port, true)
  else (port, false)

/-- Counterexample to C4 as stated: with port 80, a successful bind and a
`socket.error` from the subsequent `listen`, `get_port` returns 8000, not
80 as the claim requires for every successful bind. -/
theorem get_port_claim_counterexample :
    ¬ (get_port "0.0.0.0" 80 SocketOutcome.ok SocketOutcome.socketError).1 = 80 := by
  decide

/-- Claim C4 (amended): for port 80, `get_port` returns 8000 when the bind
or the subsequent listen raises a socket error and 80 when both succeed,
always having attempted the bind; for any other port it returns the port
unchanged without creating a socket. -/
theorem get_port_spec (address : String) (port : Nat)
    (bindOutcome listenOutcome : SocketOutcome) :
    (port = 80 →
      ((bindOutcome = SocketOutcome.socketError ∨
        (bindOutcome = SocketOutcome.ok ∧
         listenOutcome = SocketOutcome.socketError)) →
        get_port address port bindOutcome listenOutcome = (8000, true)) ∧
      (bindOutcome = SocketOutcome.ok → listenOutcome = SocketOutcome.ok →
        get_port address port bindOutcome listenOutcome = (80, true))) ∧
    (port ≠ 80 →
      get_port address port bindOutcome listenOutcome = (port, false)) := by
  constructor
  · rintro rfl
    constructor
    · rintro (rfl | ⟨rfl, rfl⟩) <;> simp [get_port]
    · rintro rfl rfl
      simp [get_port]
  · intro h
    simp [get_port, h]

/-- Witness for C4 (amended) at concrete ports and outcomes. -/
theorem get_port_spec_witness :
    get_port "0.0.0.0" 80 SocketOutcome.socketError SocketOutcome.ok = (8000, true) ∧
    get_port "0.0.0.0" 80 SocketOutcome.ok SocketOutcome.ok = (80, true) ∧
    get_port "0.0.0.0" 8234 SocketOutcome.ok SocketOutcome.ok = (8234, false) :=
  ⟨((get_port_spec "0.0.0.0" 80 SocketOutcome.socketError SocketOutcome.ok).1
      rfl).1 (Or.inl rfl),
   ((get_port_spec "0.0.0.0" 80 SocketOutcome.ok SocketOutcome.ok).1
      rfl).2 rfl rfl,
   (get_port_spec "0.0.0.0" 8234 SocketOutcome.ok SocketOutcome.ok).2
      (by decide)⟩

/-- Outcome of `tempfile.mkstemp(dir=portable_path)`: either a file
descriptor and the created file name, or an `OSError`. -/
inductive MkstempOutcome where
  | ok (fd : Nat) (test_file : String)
  | osError
deriving Repr, DecidableEq

/-- A file-system effect performed by `get_win32_portable_path` after a
successful `mkstemp`: `os.close(fd)` or `os.unlink(test_file)`. -/
inductive FsEffect where
  | closeFd (fd : Nat)
  | unlink (path : String)
deriving Repr, DecidableEq

/-- `get_win32_portable_path` from `openslides/utils/main.py`.  The
argument `portable_path` stands for
`os.path.dirname(os.path.abspath(sys.executable))`, and the outcome of
`tempfile.mkstemp(dir=portable_path)` is an oracle.  On success the
function closes and deletes the temporary file (the effect list) and
returns the portable path; on `OSError` it raises
`PortableDirNotWritable`. -/
def get_win32_portable_path (portable_path : String)
    (mkstempOutcome : MkstempOutcome) :
    Except PyExn (String × List FsEffect) :=
  match mkstempOutcome with
  | MkstempOutcome.osError =>
    Except.error (PyExn.portableDirNotWritable
      ("Portable directory is not writeable. " ++
       "Please choose another directory for settings and data files."))
  | MkstempOutcome.ok fd test_file =>
    Except.ok (portable_path, [FsEffect.closeFd fd, FsEffect.unlink test_file])

/-- Claim C5: `get_win32_portable_path` raises `PortableDirNotWritable`
exactly when `mkstemp` raises `OSError`; on success it closes the file
descriptor, deletes the temporary file and returns the directory of
`sys.executable`. -/
theorem get_win32_portable_path_spec (portable_path : String)
    (mkstempOutcome : MkstempOutcome) :
    ((∃ msg, get_win32_portable_path portable_path mkstempOutcome =
        Except.error (PyExn.portableDirNotWritable msg)) ↔
      mkstempOutcome = MkstempOutcome.osError) ∧
    (∀ fd test_file, mkstempOutcome = MkstempOutcome.ok fd test_file →
      get_win32_portable_path portable_path mkstempOutcome =
        Except.ok (portable_path,
          [FsEffect.closeFd fd, FsEffect.unlink test_file])) := by
  constructor
  · constructor
    · rintro ⟨msg, h⟩
      cases mkstempOutcome with
      | ok fd test_file => simp [get_win32_portable_path] at h
      | osError => rfl
    · rintro rfl
      exact ⟨_, rfl⟩
  · rintro fd test_file rfl
    rfl

/-- Witness for C5 at a concrete path and both mkstemp outcomes. -/
theorem get_win32_portable_path_spec_witness :
    get_win32_portable_path "C:\\openslides" MkstempOutcome.osError =
      Except.error (PyExn.portableDirNotWritable
        ("Portable directory is not writeable. " ++
         "Please choose another directory for settings and data files.")) ∧
    get_win32_portable_path "C:\\openslides" (MkstempOutcome.ok 3 "tmpf") =
      Except.ok ("C:\\openslides",
        [FsEffect.closeFd 3, FsEffect.unlink "tmpf"]) :=
  ⟨by
    obtain ⟨msg, h⟩ :=
      ((get_win32_portable_path_spec "C:\\openslides"
          MkstempOutcome.osError).1).2 rfl
    exact h ▸ (by simp [get_win32_portable_path] at h ⊢; exact h.symm ▸ rfl),
   (get_win32_portable_path_spec "C:\\openslides"
      (MkstempOutcome.ok 3 "tmpf")).2 3 "tmpf" rfl⟩

/-- Python `dict.get`: the value of the first matching key, if present. -/
def dict_get {α : Type} (d : List (String × α)) (key : String) : Option α :=
  match d.find? (fun kv => kv.1 == key) with
  | some kv => some kv.2
  | none => none

/-- Django's `DEFAULT_DB_ALIAS`. -/
def DEFAULT_DB_ALIAS : String := "default"

/-- The SQLite3 engine name tested by `get_database_path_from_settings`. -/
def sqlite3Engine : String := "django.db.backends.sqlite3"

/-- `get_database_path_from_settings` from `openslides/utils/main.py`.
The settings' `DATABASES` dict maps an alias to a database dict (itself
string keys to string values).  `if not default` is Python falsiness of
`default.get(...)`: `None` (missing alias) or the empty dict; likewise
`if not database_path` catches a missing or empty `NAME`.  A non-SQLite3
`ENGINE` turns the result into `None`. -/
def get_database_path_from_settings
    (DATABASES : List (String × List (String × String))) :
    Except PyExn (Option String) :=
  match dict_get DATABASES DEFAULT_DB_ALIAS with
  | none =>
    Except.error (PyExn.databaseInSettingsError
      "Default databases is not configured")
  | some dflt =>
    if dflt = [] then
      Except.error (PyExn.databaseInSettingsError
        "Default databases is not configured")
    else
      match dict_get dflt "NAME" with
      | none =>
        Except.error (PyExn.databaseInSettingsError
          "No path specified for default database.")
      | some database_path =>
        if database_path = "" then
          Except.error (PyExn.databaseInSettingsError
            "No path specified for default database.")
        else if dict_get dflt "ENGINE" = some sqlite3Engine then
          Except.ok (some database_path)
        else
          Except.ok none

/-- Claim C6: `get_database_path_from_settings` raises
`DatabaseInSettingsError` exactly when the default entry is missing or its
`NAME` is missing or falsy; otherwise it returns the `NAME` path for the
SQLite3 engine and `None` for any other engine. -/
theorem get_database_path_spec
    (DATABASES : List (String × List (String × String))) :
    ((∃ msg, get_database_path_from_settings DATABASES =
        Except.error (PyExn.databaseInSettingsError msg)) ↔
      dict_get DATABASES DEFAULT_DB_ALIAS = none ∨
      ∃ d, dict_get DATABASES DEFAULT_DB_ALIAS = some d ∧
        (dict_get d "NAME" = none ∨ dict_get d "NAME" = some "")) ∧
    (∀ d p, dict_get DATABASES DEFAULT_DB_ALIAS = some d →
      dict_get d "NAME" = some p → p ≠ "" →
      get_database_path_from_settings DATABASES =
        Except.ok (if dict_get d "ENGINE" = some sqlite3Engine
                   then some p else none)) := by
  constructor
  · unfold get_database_path_from_settings
    cases hd : dict_get DATABASES DEFAULT_DB_ALIAS with
    | none => simp
    | some d =>
      by_cases hnil : d = []
      · subst hnil
        simp [dict_get]
      · simp only [hnil, if_false]
        cases hn : dict_get d "NAME" with
        | none => simp [hn]
        | some p =>
          by_cases hp : p = ""
          · subst hp
            simp [hn]
          · simp only [hp, if_false]
            by_cases he : dict_get d "ENGINE" = some sqlite3Engine <;>
              simp [he, hp, hn]
  · intro d p hd hn hp
    have hnil : d ≠ [] := by
      intro h
      subst h
      simp [dict_get] at hn
    by_cases he : dict_get d "ENGINE" = some sqlite3Engine <;>
      simp [get_database_path_from_settings, hd, hnil, hn, hp, he]

/-- Witness for C6 on a concrete SQLite3 settings dict. -/
theorem get_database_path_spec_witness :
    get_database_path_from_settings
      [("default", [("ENGINE", "django.db.backends.sqlite3"),
                    ("NAME", "/var/db.sqlite")])] =
      Except.ok (some "/var/db.sqlite") := by
  have h := (get_database_path_spec
    [("default", [("ENGINE", "django.db.backends.sqlite3"),
                  ("NAME", "/var/db.sqlite")])]).2
    [("ENGINE", "django.db.backends.sqlite3"), ("NAME", "/var/db.sqlite")]
    "/var/db.sqlite" (by decide) (by decide) (by decide)
  simpa using h

/-- `ensure_settings` from `openslides/utils/main.py`.  `settings` is the
settings path (`none` for Python `None`, empty string falsy), and
`path_exists` is the `os.path.exists` oracle.  The result is the path
handed to `write_settings`, or `none` when nothing is written. -/
def ensure_settings (settings : Option String)
    (path_exists : String → Bool) : Option String :=
  match settings with
  | none => none
  | some s =>
    if pyStrTruthy s ∧ path_exists s = false then some s else none

/-- Claim C7: `ensure_settings` writes exactly when the settings path is
given, non-empty and no file exists there; in particular an existing file
is never overwritten. -/
theorem ensure_settings_spec (settings : Option String)
    (path_exists : String → Bool) :
    (∀ p, ensure_settings settings path_exists = some p ↔
      settings = some p ∧ p ≠ "" ∧ path_exists p = false) ∧
    (∀ p, settings = some p → path_exists p = true →
      ensure_settings settings path_exists = none) := by
  constructor
  · intro p
    cases settings with
    | none => simp [ensure_settings]
    | some s =>
      by_cases hex : path_exists s = false
      · by_cases hs : pyStrTruthy s
        · simp only [pyStrTruthy, bne_iff_ne, ne_eq] at hs
          constructor
          · intro h
            simp [ensure_settings, hex, pyStrTruthy, hs] at h
            subst h
            exact ⟨rfl, hs, hex⟩
          · rintro ⟨h, _, _⟩
            cases h
            simp [ensure_settings, hex, pyStrTruthy, hs]
        · simp only [pyStrTruthy, bne_iff_ne, ne_eq, not_not] at hs
          subst hs
          simp only [ensure_settings, pyStrTruthy]
          simp
          intro e h
          exact absurd e.symm h
      · simp only [Bool.not_eq_false] at hex
        constructor
        · intro h
          simp [ensure_settings, hex] at h
        · rintro ⟨h, _, hex2⟩
          cases h
          rw [hex] at hex2
          exact absurd hex2 (by simp)
  · rintro p rfl hex
    simp [ensure_settings, hex]

/-- Witness for C7: an existing settings file is left alone, a missing one
at a non-empty path is written. -/
theorem ensure_settings_spec_witness :
    ensure_settings (some "/etc/openslides/settings.py") (fun _ => true) = none ∧
    ensure_settings (some "/etc/openslides/settings.py") (fun _ => false) =
      some "/etc/openslides/settings.py" :=
  ⟨(ensure_settings_spec (some "/etc/openslides/settings.py")
      (fun _ => true)).2 "/etc/openslides/settings.py" rfl rfl,
   ((ensure_settings_spec (some "/etc/openslides/settings.py")
      (fun _ => false)).1 "/etc/openslides/settings.py").2
      ⟨rfl, by decide, rfl⟩⟩

/-! ## OpenSlides type detection and default paths -/

/-- The constant `UNIX_VERSION` of `openslides/utils/main.py`. -/
def UNIX_VERSION : String := "Unix Version"

/-- The constant `WINDOWS_VERSION` of `openslides/utils/main.py`. -/
def WINDOWS_VERSION : String := "Windows Version"

/-- The constant `WINDOWS_PORTABLE_VERSION` of `openslides/utils/main.py`. -/
def WINDOWS_PORTABLE_VERSION : String := "Windows Portable Version"

/-- Python `str.lower` under the default locale: ASCII lowercasing. -/
def strLower (s : String) : String :=
  ⟨s.data.map Char.toLower⟩

/-- Python 2 `ntpath.splitdrive`: when the second character is a colon the
first two characters are the drive. -/
def ntSplitdrive (p : String) : String × String :=
  match p.data with
  | a :: b :: rest =>
    if b = ':' then (⟨[a, b]⟩, ⟨rest⟩) else ("", p)
  | _ => ("", p)

/-- The suffix of a character list after its last slash or backslash. -/
def afterLastSep (cs : List Char) : List Char :=
  cs.foldl (fun acc c => if c = '/' ∨ c = '\\' then [] else acc ++ [c]) []

/-- Python 2 `ntpath.basename`: split off the drive, then keep what
follows the last slash or backslash. -/
def ntBasename (p : String) : String :=
  ⟨afterLastSep (ntSplitdrive p).2.data⟩

/-- `detect_openslides_type` from `openslides/utils/main.py`.  `platform`
is `sys.platform` and `executable` is `sys.executable`; in the `win32`
branch `os.path.basename` is `ntpath.basename`. -/
def detect_openslides_type (platform executable : String) : String :=
  if platform = "win32" then
    if strLower (ntBasename executable) = "openslides.exe" then
      WINDOWS_PORTABLE_VERSION
    else
      WINDOWS_VERSION
  else
    UNIX_VERSION

/-- Claim C8: `detect_openslides_type` returns exactly one of the three
version constants: the portable version precisely on `win32` with a
lower-cased executable basename of "openslides.exe", the Windows version
on any other `win32` executable, and the Unix version off `win32`. -/
theorem detect_openslides_type_spec (platform executable : String) :
    (detect_openslides_type platform executable = UNIX_VERSION ∨
     detect_openslides_type platform executable = WINDOWS_VERSION ∨
     detect_openslides_type platform executable = WINDOWS_PORTABLE_VERSION) ∧
    (detect_openslides_type platform executable = WINDOWS_PORTABLE_VERSION ↔
      platform = "win32" ∧
      strLower (ntBasename executable) = "openslides.exe") ∧
    (platform = "win32" →
      strLower (ntBasename executable) ≠ "openslides.exe" →
      detect_openslides_type platform executable = WINDOWS_VERSION) ∧
    (platform ≠ "win32" →
      detect_openslides_type platform executable = UNIX_VERSION) := by
  by_cases hw : platform = "win32"
  · by_cases hb : strLower (ntBasename executable) = "openslides.exe"
    · have hd : detect_openslides_type platform executable =
          WINDOWS_PORTABLE_VERSION := by
        simp [detect_openslides_type, hw, hb]
      refine ⟨Or.inr (Or.inr hd), ?_, ?_, ?_⟩
      · exact ⟨fun _ => ⟨hw, hb⟩, fun _ => hd⟩
      · intro _ hb2
        exact absurd hb hb2
      · intro hw2
        exact absurd hw hw2
    · have hd : detect_openslides_type platform executable =
          WINDOWS_VERSION := by
        simp [detect_openslides_type, hw, hb]
      refine ⟨Or.inr (Or.inl hd), ?_, ?_, ?_⟩
      · constructor
        · intro h
          rw [hd] at h
          exact absurd h (by decide)
        · rintro ⟨-, hb2⟩
          exact absurd hb2 hb
      · intro _ _
        exact hd
      · intro hw2
        exact absurd hw hw2
  · have hd : detect_openslides_type platform executable = UNIX_VERSION := by
      simp [detect_openslides_type, hw]
    refine ⟨Or.inl hd, ?_, ?_, ?_⟩
    · constructor
      · intro h
        rw [hd] at h
        exact absurd h (by decide)
      · rintro ⟨hw2, -⟩
        exact absurd hw2 hw
    · intro hw2
      exact absurd hw2 hw
    · intro _
      exact hd

/-- Witness for C8 at a Unix interpreter and a portable executable. -/
theorem detect_openslides_type_spec_witness :
    detect_openslides_type "linux2" "/usr/bin/python" = UNIX_VERSION ∧
    detect_openslides_type "win32" "C:\\OpenSlides\\OpenSlides.exe" =
      WINDOWS_PORTABLE_VERSION :=
  ⟨(detect_openslides_type_spec "linux2" "/usr/bin/python").2.2.2 (by decide),
   ((detect_openslides_type_spec "win32"
      "C:\\OpenSlides\\OpenSlides.exe").2.1).2 ⟨rfl, by decide⟩⟩

/-- `filesystem2unicode`: decodes a byte path with the filesystem
encoding; on the already-unicode strings of this model it is the
identity. -/
def filesystem2unicode (path : String) : String :=
  path

/-- Single-character prefix test (`s.startswith(c)` for one character). -/
def strStartsWithChar (s : String) (c : Char) : Bool :=
  match s.data with
  | [] => false
  | a :: _ => a == c

/-- Single-character suffix test (`s[-1] == c`). -/
def strEndsWithChar (s : String) (c : Char) : Bool :=
  match s.data.getLast? with
  | some a => a == c
  | none => false

/-- Python 2 `posixpath.join` restricted to two components. -/
def posixJoin2 (path b : String) : String :=
  if strStartsWithChar b '/' then b
  else if path = "" ∨ strEndsWithChar path '/' then path ++ b
  else path ++ "/" ++ b

/-- Does the string end in a slash or backslash (`path[-1] in "/\\"`)? -/
def ntLastIsSep (s : String) : Bool :=
  strEndsWithChar s '/' || strEndsWithChar s '\\'

/-- Python 2 `ntpath.isabs`. -/
def ntIsabs (s : String) : Bool :=
  let t := (ntSplitdrive s).2
  (t != "") && (strStartsWithChar t '/' || strStartsWithChar t '\\')

/-- Is the second character of the string a colon (`p[1:2] == ":"`)? -/
def secondIsColon (s : String) : Bool :=
  match s.data with
  | _ :: c :: _ => c == ':'
  | _ => false

/-- Python 2 `ntpath.join` restricted to two components, including the
drive-letter cases deciding whether the second component wins. -/
def ntJoin2 (path b : String) : String :=
  let b_wins :=
    if path = "" then true
    else if ntIsabs b then
      if secondIsColon path = false ∨ secondIsColon b then true
      else if path.length > 3 ∨
          (path.length = 3 ∧ ntLastIsSep path = false) then true
      else false
    else false
  if b_wins then b
  else if ntLastIsSep path then
    if (b != "") && (strStartsWithChar b '/' || strStartsWithChar b '\\') then
      path ++ (⟨b.data.drop 1⟩ : String)
    else path ++ b
  else if strEndsWithChar path ':' then path ++ b
  else if b != "" then
    if strStartsWithChar b '/' || strStartsWithChar b '\\' then path ++ b
    else path ++ "\\" ++ b
  else path ++ "\\"

/-- `os.path.join` on the host platform: `ntpath.join` on `win32`,
`posixpath.join` elsewhere. -/
def os_path_join2 (platform : String) : String → String → String :=
  if platform = "win32" then ntJoin2 else posixJoin2

/-- `get_default_settings_path` from `openslides/utils/main.py`.
`platform` is `sys.platform` (selecting the host's `os.path.join`),
`xdg_config_home` is the `XDG_CONFIG_HOME` environment variable, `home`
is `os.path.expanduser` of the tilde, and the results of
`get_win32_app_data_path` and `get_win32_portable_path` are oracle
arguments (either may raise). -/
def get_default_settings_path (platform openslides_type : String)
    (xdg_config_home : Option String) (home : String)
    (win32_app_data_path win32_portable_path : Except PyExn String) :
    Except PyExn String :=
  let j := os_path_join2 platform
  let parent_directory : Except PyExn String :=
    if openslides_type = UNIX_VERSION then
      Except.ok (filesystem2unicode
        (match xdg_config_home with
         | some value => value
         | none => j home ".config"))
    else if openslides_type = WINDOWS_VERSION then
      win32_app_data_path
    else if openslides_type = WINDOWS_PORTABLE_VERSION then
      win32_portable_path
    else
      Except.error (PyExn.typeError
        (openslides_type ++ " is not a valid OpenSlides type."))
  match parent_directory with
  | Except.error e => Except.error e
  | Except.ok parent => Except.ok (j (j parent "openslides") "settings.py")

/-- `get_default_user_data_path` from `openslides/utils/main.py`, with
the same oracle arguments; `xdg_data_home` is the `XDG_DATA_HOME`
environment variable. -/
def get_default_user_data_path (platform openslides_type : String)
    (xdg_data_home : Option String) (home : String)
    (win32_app_data_path win32_portable_path : Except PyExn String) :
    Except PyExn String :=
  let j := os_path_join2 platform
  if openslides_type = UNIX_VERSION then
    Except.ok (filesystem2unicode
      (match xdg_data_home with
       | some value => value
       | none => j (j home ".local") "share"))
  else if openslides_type = WINDOWS_VERSION then
    win32_app_data_path
  else if openslides_type = WINDOWS_PORTABLE_VERSION then
    win32_portable_path
  else
    Except.error (PyExn.typeError
      (openslides_type ++ " is not a valid OpenSlides type."))

/-- Claim C10: for any argument other than the three version constants,
`get_default_settings_path` and `get_default_user_data_path` raise
`TypeError`; for the Unix version, `get_default_settings_path` returns
the join of the config home (`XDG_CONFIG_HOME` if set, else
`~/.config`) with "openslides" and "settings.py". -/
theorem default_paths_spec (platform openslides_type : String)
    (xdg_config_home xdg_data_home : Option String) (home : String)
    (win32_app_data_path win32_portable_path : Except PyExn String) :
    (openslides_type ≠ UNIX_VERSION → openslides_type ≠ WINDOWS_VERSION →
     openslides_type ≠ WINDOWS_PORTABLE_VERSION →
      get_default_settings_path platform openslides_type xdg_config_home
          home win32_app_data_path win32_portable_path =
        Except.error (PyExn.typeError
          (openslides_type ++ " is not a valid OpenSlides type.")) ∧
      get_default_user_data_path platform openslides_type xdg_data_home
          home win32_app_data_path win32_portable_path =
        Except.error (PyExn.typeError
          (openslides_type ++ " is not a valid OpenSlides type."))) ∧
    (platform ≠ "win32" →
      get_default_settings_path platform UNIX_VERSION xdg_config_home
          home win32_app_data_path win32_portable_path =
        Except.ok (posixJoin2 (posixJoin2
          (match xdg_config_home with
           | some value => value
           | none => posixJoin2 home ".config") "openslides")
          "settings.py")) := by
  constructor
  · intro h1 h2 h3
    constructor
    · simp [get_default_settings_path, h1, h2, h3]
    · simp [get_default_user_data_path, h1, h2, h3]
  · intro hw
    simp [get_default_settings_path, os_path_join2, hw, filesystem2unicode]

/-- Witness for C10 on a bad type string and a Unix home without
`XDG_CONFIG_HOME`. -/
theorem default_paths_spec_witness :
    get_default_settings_path "linux2" "Mac Version" none "/home/oss"
        (Except.ok "appdata") (Except.ok "portable") =
      Except.error (PyExn.typeError
        "Mac Version is not a valid OpenSlides type.") ∧
    get_default_user_data_path "linux2" "Mac Version" none "/home/oss"
        (Except.ok "appdata") (Except.ok "portable") =
      Except.error (PyExn.typeError
        "Mac Version is not a valid OpenSlides type.") ∧
    get_default_settings_path "linux2" UNIX_VERSION none "/home/oss"
        (Except.ok "appdata") (Except.ok "portable") =
      Except.ok "/home/oss/.config/openslides/settings.py" := by
  refine ⟨?_, ?_, ?_⟩
  · exact ((default_paths_spec "linux2" "Mac Version" none none "/home/oss"
      (Except.ok "appdata") (Except.ok "portable")).1
      (by decide) (by decide) (by decide)).1
  · exact ((default_paths_spec "linux2" "Mac Version" none none "/home/oss"
      (Except.ok "appdata") (Except.ok "portable")).1
      (by decide) (by decide) (by decide)).2
  · rw [(default_paths_spec "linux2" UNIX_VERSION none none "/home/oss"
      (Except.ok "appdata") (Except.ok "portable")).2 (by decide)]
    exact congrArg Except.ok (by decide)
